import Mathlib

/-!
Shallow embedding of the QuickBooks OAuth integration service
(`src/index.js` and its near-duplicate variants under `src/unnamed/`).

The code of interest is the token lifecycle inside the
`app.get("/report/:name")` handler: load the persisted token record,
refresh it against the OAuth issuer, persist the rotated pair, then fetch
the report with the new bearer token and insert it into the sink.

External effects (the issuer HTTP call, the report fetch, the durable
file write, the warehouse insert) are modelled by an oracle that fixes
each call's outcome; the handler is then a pure function from the request
name, the persisted-file state and the oracle to an HTTP outcome, the new
file state and a trace of the network/persistence events in the order the
code performs them.
-/

namespace QboOauth

/-- The persisted token record (`tokens.json` contents).  In the JS code a
field may be absent (`undefined`), hence `Option String`. -/
structure Tokens where
  realm_id      : Option String
  access_token  : Option String
  refresh_token : Option String
deriving DecidableEq, Repr

/-- `{}` — the record `loadTokens` returns from its catch-all. -/
def emptyTokens : Tokens := ⟨none, none, none⟩

/-- JS truthiness of an optional string field: `undefined` and `""` are
falsy, every other string is truthy. -/
def truthy : Option String → Bool
  | none => false
  | some s => !s.isEmpty

/-- State of the durable token file at `TOKEN_PATH`. -/
inductive FileState where
  /-- no token file yet (`ENOENT` on read) -/
  | absent
  /-- file exists but the read itself fails (e.g. permission error) -/
  | unreadable
  /-- file reads but `JSON.parse` throws on its contents -/
  | corrupt (raw : String)
  /-- file holds a well-formed JSON token record -/
  | record (t : Tokens)
deriving DecidableEq, Repr

/-- `loadTokens` (src/index.js lines 57-64): read and parse the file,
returning `{}` from the catch-all on ANY failure — missing file,
unreadable file or corrupt JSON alike. -/
def loadTokens : FileState → Tokens
  | .record t => t
  | _ => emptyTokens

/-- Outcome of the issuer refresh POST.  `rejected` (issuer refuses the
refresh token, an HTTP error status) and `network` (transport failure)
both make axios throw; they are separate constructors so claims can
distinguish the cause even though the code's catch cannot. -/
inductive RefreshOutcome where
  | success (access_token refresh_token : String)
  | rejected
  | network
deriving DecidableEq, Repr

/-- Outcome of the `fs.writeFile` inside `saveTokens`. -/
inductive SaveOutcome where
  | ok
  | failure
deriving DecidableEq, Repr

/-- Outcome of the report GET against the QuickBooks API. -/
inductive FetchOutcome where
  | ok (data : String)
  | failure
deriving DecidableEq, Repr

/-- Oracle fixing each external call's outcome for one request. -/
structure Oracle where
  refresh  : RefreshOutcome
  save     : SaveOutcome
  fetch    : FetchOutcome
  insertOk : Bool
deriving DecidableEq, Repr

/-- Network/persistence events, recorded in program order. -/
inductive Event where
  /-- POST to the issuer token endpoint carrying this refresh token -/
  | issuerCall (refresh_token : String)
  /-- a completed durable write of this record (`await saveTokens`) -/
  | saveDone (t : Tokens)
  /-- GET to the report endpoint with this URL and bearer token -/
  | qbFetch (url bearer : String)
deriving DecidableEq, Repr

/-- Result of one `/report/:name` request: HTTP status and body, the
file state after the request, and the event trace. -/
structure Outcome where
  status : Nat
  body   : String
  file   : FileState
  trace  : List Event
deriving DecidableEq, Repr

/-- `const reports = { AgedReceivables: "" }` (src/index.js line 52-54):
the report whitelist, mapping each supported name to its query-param
suffix. -/
def reports : List (String × String) := [("AgedReceivables", "")]

/-- Property names every JS object literal inherits from
`Object.prototype`; the `in` operator and plain property lookup see
these even though they are not own keys of the object. -/
def objectPrototypeKeys : List String :=
  ["constructor", "hasOwnProperty", "isPrototypeOf", "propertyIsEnumerable",
   "toLocaleString", "toString", "valueOf",
   "__defineGetter__", "__defineSetter__",
   "__lookupGetter__", "__lookupSetter__", "__proto__"]

/-- The whitelist test `name in reports` (src/index.js line 125) with
the value `reports[name]` it admits.  The JS `in` operator walks the
prototype chain, so besides the configured own keys every
`Object.prototype` property name passes the check; for those the value
later appended to the report URL is the inherited property coerced to a
string, abstracted here as a marker (its exact text is engine-defined).
part_002's `reports[name] === undefined` test (line 137) admits exactly
the same names, since no configured value is `undefined`. -/
def lookupReport (name : String) : Option String :=
  match reports.find? (fun p => p.fst == name) with
  | some p => some p.snd
  | none =>
    if objectPrototypeKeys.contains name then
      some ("[Object.prototype." ++ name ++ " coerced to string]")
    else none

/-- The `app.get("/report/:name")` handler of src/index.js (lines
123-199), with the Snowflake insert-and-verify tail collapsed into the
`insertOk` oracle bit (the verify step only logs and always sends the
success body). -/
def reportHandler (name : String) (file : FileState) (o : Oracle) : Outcome :=
  -- line 125: whitelist check before anything else
  match lookupReport name with
  | none => ⟨400, "Unsupported report.", file, []⟩
  | some params =>
    -- lines 128-131: load tokens, not-connected check
    let tokens := loadTokens file
    if !(truthy tokens.refresh_token) || !(truthy tokens.realm_id) then
      ⟨401, "Not connected. Visit /connect first.", file, []⟩
    else
      -- lines 134-156: refresh; `await saveTokens` sits INSIDE this try,
      -- so a save failure is caught by the same catch as a refresh failure
      let rt := tokens.refresh_token.getD ""
      let ev0 := [Event.issuerCall rt]
      match o.refresh with
      | .rejected => ⟨500, "Token refresh failed.", file, ev0⟩
      | .network  => ⟨500, "Token refresh failed.", file, ev0⟩
      | .success a r =>
        let tokens' : Tokens :=
          { tokens with access_token := some a, refresh_token := some r }
        match o.save with
        | .failure => ⟨500, "Token refresh failed.", file, ev0⟩
        | .ok =>
          let file' := FileState.record tokens'
          let ev1 := ev0 ++ [Event.saveDone tokens']
          -- lines 159-169: report fetch with the new bearer token
          let apiUrl := "https://quickbooks.api.intuit.com/v3/company/"
            ++ tokens.realm_id.getD "" ++ "/reports/" ++ name ++ params
          let ev2 := ev1 ++ [Event.qbFetch apiUrl a]
          match o.fetch with
          | .failure => ⟨500, "Failed to fetch report", file', ev2⟩
          | .ok _ =>
            -- lines 180-198: Snowflake insert, then verify (log only)
            if o.insertOk then
              ⟨200, "Report loaded with dollar-quoting!", file', ev2⟩
            else
              ⟨500, "Snowflake insert failed.", file', ev2⟩

/-- The `app.get("/report/:name")` handler of src/unnamed/part_002
(lines 134-178).  Differences from src/index.js: its `saveTokens`
(part_002 lines 82-88) CATCHES the write error and only logs it, so a
failed durable write does not interrupt the request — execution
continues with the old file contents on disk; the not-connected body is
"Not connected." and the fetch/sink bodies differ.
src/unnamed/part_006 (lines 47-53, 97-131) has the same swallowing
`saveTokens` and the same handler shape. -/
def reportHandler_part002 (name : String) (file : FileState) (o : Oracle) :
    Outcome :=
  match lookupReport name with
  | none => ⟨400, "Unsupported report.", file, []⟩
  | some defaultParams =>
    let tokens := loadTokens file
    if !(truthy tokens.refresh_token) || !(truthy tokens.realm_id) then
      ⟨401, "Not connected.", file, []⟩
    else
      let rt := tokens.refresh_token.getD ""
      let ev0 := [Event.issuerCall rt]
      match o.refresh with
      | .rejected => ⟨500, "Token refresh failed.", file, ev0⟩
      | .network  => ⟨500, "Token refresh failed.", file, ev0⟩
      | .success a r =>
        let tokens' : Tokens :=
          { tokens with access_token := some a, refresh_token := some r }
        -- part_002 saveTokens: `catch (err) { console.error(...) }` —
        -- a write failure is logged and swallowed, the request goes on
        let file' := match o.save with
          | .ok => FileState.record tokens'
          | .failure => file
        let ev1 := match o.save with
          | .ok => ev0 ++ [Event.saveDone tokens']
          | .failure => ev0
        let apiUrl := "https://quickbooks.api.intuit.com/v3/company/"
          ++ tokens.realm_id.getD "" ++ "/reports/" ++ name ++ defaultParams
        let ev2 := ev1 ++ [Event.qbFetch apiUrl a]
        match o.fetch with
        | .failure => ⟨500, "Report fetch failed.", file', ev2⟩
        | .ok _ =>
          if o.insertOk then ⟨200, "Data loaded.", file', ev2⟩
          else ⟨500, "Snowflake load failed.", file', ev2⟩

/-- Oracle for the part_003 handler, which additionally pings the
warehouse before touching tokens. -/
structure Oracle003 where
  pingOk   : Bool
  refresh  : RefreshOutcome
  save     : SaveOutcome
  fetch    : FetchOutcome
  insertOk : Bool
deriving DecidableEq, Repr

/-- The `app.get("/report/:name")` handler of src/unnamed/part_003
(lines 108-141).  It performs NO whitelist check: any `:name` proceeds
straight to the db ping, the token refresh and the report fetch.  Its
not-connected check looks only at `refresh_token` (not `realm_id`), and
every thrown error lands in one outer catch answering 500 with the
dynamic message `Error: ...` (the runtime message text is abstracted
here).  src/unnamed/part_004 (lines 148-207) likewise has no whitelist
check. -/
def reportHandler_part003 (name : String) (file : FileState) (o : Oracle003) :
    Outcome :=
  if !o.pingOk then ⟨500, "Error: ", file, []⟩
  else
    let tokens := loadTokens file
    if !(truthy tokens.refresh_token) then
      ⟨401, "Not connected.", file, []⟩
    else
      let rt := tokens.refresh_token.getD ""
      let ev0 := [Event.issuerCall rt]
      match o.refresh with
      | .rejected => ⟨500, "Error: ", file, ev0⟩
      | .network  => ⟨500, "Error: ", file, ev0⟩
      | .success a r =>
        let tokens' : Tokens :=
          { tokens with access_token := some a, refresh_token := some r }
        match o.save with
        | .failure => ⟨500, "Error: ", file, ev0⟩
        | .ok =>
          let file' := FileState.record tokens'
          let ev1 := ev0 ++ [Event.saveDone tokens']
          let apiUrl := "https://quickbooks.api.intuit.com/v3/company/"
            ++ tokens.realm_id.getD "" ++ "/reports/" ++ name
          let ev2 := ev1 ++ [Event.qbFetch apiUrl a]
          match o.fetch with
          | .failure => ⟨500, "Error: ", file', ev2⟩
          | .ok _ =>
            if o.insertOk then ⟨200, "✅ Report ingested.", file', ev2⟩
            else ⟨500, "Error: ", file', ev2⟩

/-- Scans a trace and checks that every report fetch is preceded by a
completed durable save of a record whose access token is exactly the
bearer token the fetch carries: the rotated pair is persisted before the
new access token is first used. -/
def rotatedSavedBeforeFetch : List Event → List Tokens → Bool
  | [], _ => true
  | Event.saveDone t :: rest, saved => rotatedSavedBeforeFetch rest (t :: saved)
  | Event.qbFetch _ b :: rest, saved =>
      saved.any (fun t => t.access_token == some b)
        && rotatedSavedBeforeFetch rest saved
  | Event.issuerCall _ :: rest, saved => rotatedSavedBeforeFetch rest saved

/-- Does the trace contain a call to the token issuer? -/
def callsIssuer (tr : List Event) : Bool :=
  tr.any (fun e => match e with | Event.issuerCall _ => true | _ => false)

/-- Does the trace contain a report-endpoint fetch? -/
def callsReportEndpoint (tr : List Event) : Bool :=
  tr.any (fun e => match e with | Event.qbFetch _ _ => true | _ => false)

/-- Does the trace contain a completed durable save? -/
def savesRecord (tr : List Event) : Bool :=
  tr.any (fun e => match e with | Event.saveDone _ => true | _ => false)

/-- A concrete connected token record, matching the spec's example
scenario (`tenant "realm-42"`, pair `A1`/`R1`). -/
def tok0 : Tokens := ⟨some "realm-42", some "A1", some "R1"⟩

/-- C1: a successful refresh performed by the report handler replaces
both the access token and the refresh token in the persisted record
with the values from the issuer's response, so reloading the record
yields exactly the last response's pair. -/
theorem refresh_success_persists_latest_pair
    (name params : String) (t : Tokens) (o : Oracle) (a r : String)
    (hname : lookupReport name = some params)
    (hrt : truthy t.refresh_token = true)
    (hrid : truthy t.realm_id = true)
    (hrefresh : o.refresh = .success a r)
    (hsave : o.save = .ok) :
    loadTokens (reportHandler name (.record t) o).file
      = { t with access_token := some a, refresh_token := some r } := by
  rcases o with ⟨refresh, save, fetch, insertOk⟩
  simp only at hrefresh hsave
  subst hrefresh; subst hsave
  cases fetch <;> cases insertOk <;>
    simp [reportHandler, hname, hrt, hrid, loadTokens]

/-- C1 witness: concrete run on `tok0` with issuer response `A2`/`R2`. -/
theorem refresh_success_persists_latest_pair_witness :
    lookupReport "AgedReceivables" = some ""
      ∧ loadTokens (reportHandler "AgedReceivables" (.record tok0)
          ⟨.success "A2" "R2", .ok, .failure, false⟩).file
        = { tok0 with access_token := some "A2", refresh_token := some "R2" } :=
  ⟨by decide,
   refresh_success_persists_latest_pair "AgedReceivables" "" tok0
     ⟨.success "A2" "R2", .ok, .failure, false⟩ "A2" "R2"
     (by decide) (by decide) (by decide) rfl rfl⟩

/-- C2: if the issuer refresh call throws (rejection or transport
failure), the handler performs no persistence write — the persisted
file is unchanged and the trace holds no completed save. -/
theorem refresh_failure_leaves_store_unchanged
    (name : String) (file : FileState) (o : Oracle)
    (h : o.refresh = .rejected ∨ o.refresh = .network) :
    (reportHandler name file o).file = file
      ∧ savesRecord (reportHandler name file o).trace = false := by
  rcases o with ⟨refresh, save, fetch, insertOk⟩
  simp only at h
  cases hl : lookupReport name <;>
    rcases h with h | h <;> subst h <;>
      simp [reportHandler, hl, savesRecord] <;>
        split <;> simp

/-- C2 witness: concrete run on `tok0` with the issuer rejecting. -/
theorem refresh_failure_leaves_store_unchanged_witness :
    (reportHandler "AgedReceivables" (.record tok0)
        ⟨.rejected, .ok, .failure, false⟩).file = .record tok0
      ∧ savesRecord (reportHandler "AgedReceivables" (.record tok0)
          ⟨.rejected, .ok, .failure, false⟩).trace = false :=
  refresh_failure_leaves_store_unchanged "AgedReceivables" (.record tok0)
    ⟨.rejected, .ok, .failure, false⟩ (Or.inl rfl)

/-- C3: with no persisted token record, a whitelisted report request
answers 401 and makes no network call at all — in particular none to
the token issuer. -/
theorem no_record_yields_401_no_issuer_call
    (name params : String) (o : Oracle)
    (hname : lookupReport name = some params) :
    (reportHandler name .absent o).status = 401
      ∧ (reportHandler name .absent o).trace = []
      ∧ callsIssuer (reportHandler name .absent o).trace = false := by
  refine ⟨?_, ?_, ?_⟩ <;>
    simp [reportHandler, hname, loadTokens, emptyTokens, truthy, callsIssuer]

/-- C3 witness: concrete run with no token file. -/
theorem no_record_yields_401_no_issuer_call_witness :
    (reportHandler "AgedReceivables" .absent
        ⟨.network, .ok, .failure, false⟩).status = 401
      ∧ (reportHandler "AgedReceivables" .absent
          ⟨.network, .ok, .failure, false⟩).trace = []
      ∧ callsIssuer (reportHandler "AgedReceivables" .absent
          ⟨.network, .ok, .failure, false⟩).trace = false :=
  no_record_yields_401_no_issuer_call "AgedReceivables" ""
    ⟨.network, .ok, .failure, false⟩ (by decide)

/-- C4 counterexample: when the issuer rejects the stored refresh token
the handler responds 500, not 401 — the refresh catch maps every
failure, issuer rejection included, to
`res.status(500).send("Token refresh failed.")`. -/
theorem issuer_rejection_status_counterexample :
    (reportHandler "AgedReceivables" (.record tok0)
        ⟨.rejected, .ok, .failure, false⟩).status = 500
      ∧ ¬ (reportHandler "AgedReceivables" (.record tok0)
          ⟨.rejected, .ok, .failure, false⟩).status = 401 := by
  decide

/-- C4 amended: issuer rejection of the refresh token surfaces as HTTP
500 with body "Token refresh failed." — indistinguishable from a
transport failure — and the persisted record is unchanged. -/
theorem issuer_rejection_yields_500
    (name params : String) (file : FileState) (o : Oracle)
    (hname : lookupReport name = some params)
    (hrt : truthy (loadTokens file).refresh_token = true)
    (hrid : truthy (loadTokens file).realm_id = true)
    (hrej : o.refresh = .rejected) :
    (reportHandler name file o).status = 500
      ∧ (reportHandler name file o).body = "Token refresh failed."
      ∧ (reportHandler name file o).file = file := by
  rcases o with ⟨refresh, save, fetch, insertOk⟩
  simp only at hrej
  subst hrej
  refine ⟨?_, ?_, ?_⟩ <;> simp [reportHandler, hname, hrt, hrid]

/-- C4 amended witness: concrete rejected refresh on `tok0`. -/
theorem issuer_rejection_yields_500_witness :
    (reportHandler "AgedReceivables" (.record tok0)
        ⟨.rejected, .failure, .failure, false⟩).status = 500
      ∧ (reportHandler "AgedReceivables" (.record tok0)
          ⟨.rejected, .failure, .failure, false⟩).body = "Token refresh failed."
      ∧ (reportHandler "AgedReceivables" (.record tok0)
          ⟨.rejected, .failure, .failure, false⟩).file = .record tok0 :=
  issuer_rejection_yields_500 "AgedReceivables" "" (.record tok0)
    ⟨.rejected, .failure, .failure, false⟩
    (by decide) (by decide) (by decide) rfl

/-- C5: in the part_002 variant (and part_006, whose `saveTokens` is the
same), a durable-write failure after a successful issuer refresh is
caught and only logged inside `saveTokens`, so the request proceeds and
reports success (200 "Data loaded.") while the rotated pair was never
persisted — the old record `A1`/`R1` is still on disk.  This contradicts
the spec's "the call surfaces PersistenceFailure and the manager must
not report success to the caller". -/
theorem part002_save_failure_reports_success :
    (reportHandler_part002 "AgedReceivables" (.record tok0)
        ⟨.success "A2" "R2", .failure, .ok "report-json", true⟩).status = 200
      ∧ (reportHandler_part002 "AgedReceivables" (.record tok0)
          ⟨.success "A2" "R2", .failure, .ok "report-json", true⟩).body
        = "Data loaded."
      ∧ (reportHandler_part002 "AgedReceivables" (.record tok0)
          ⟨.success "A2" "R2", .failure, .ok "report-json", true⟩).file
        = .record tok0 := by
  decide

/-- C6 counterexample: a corrupt (unparseable) token file is NOT
surfaced as an error — `loadTokens`'s catch-all coerces it to `{}` and
the handler answers 401 Not connected, exactly as for a missing file. -/
theorem corrupt_store_coerced_to_not_connected :
    loadTokens (.corrupt "not valid json") = emptyTokens
      ∧ (reportHandler "AgedReceivables" (.corrupt "not valid json")
          ⟨.network, .ok, .failure, false⟩).status = 401
      ∧ (reportHandler "AgedReceivables" (.corrupt "not valid json")
          ⟨.network, .ok, .failure, false⟩).body
        = "Not connected. Visit /connect first." := by
  decide

/-- C6 amended: EVERY load failure — missing file, unreadable file,
corrupt JSON alike — is silently coerced to the empty record and hence
to the NotConnected outcome (401, no network call); no read or parse
error is surfaced. -/
theorem all_load_failures_yield_not_connected
    (name params : String) (file : FileState) (o : Oracle)
    (hname : lookupReport name = some params)
    (hbad : ∀ t, file ≠ .record t) :
    loadTokens file = emptyTokens
      ∧ (reportHandler name file o).status = 401
      ∧ (reportHandler name file o).trace = [] := by
  have hload : loadTokens file = emptyTokens := by
    cases file
    case record t => exact absurd rfl (hbad t)
    all_goals rfl
  refine ⟨hload, ?_, ?_⟩ <;>
    simp [reportHandler, hname, hload, emptyTokens, truthy]

/-- C6 amended witness: an unreadable token file yields 401. -/
theorem all_load_failures_yield_not_connected_witness :
    loadTokens .unreadable = emptyTokens
      ∧ (reportHandler "AgedReceivables" .unreadable
          ⟨.network, .ok, .failure, false⟩).status = 401
      ∧ (reportHandler "AgedReceivables" .unreadable
          ⟨.network, .ok, .failure, false⟩).trace = [] :=
  all_load_failures_yield_not_connected "AgedReceivables" "" .unreadable
    ⟨.network, .ok, .failure, false⟩ (by decide)
    (fun t h => FileState.noConfusion h)

/-- C7 counterexample: in the part_002/part_006 variants, when the
durable write of the rotated pair fails, the failure is swallowed and
the report fetch is still issued with the new bearer token `A2` — with
NO completed save of the rotated record preceding it. -/
theorem part002_fetch_without_prior_save_counterexample :
    rotatedSavedBeforeFetch
        (reportHandler_part002 "AgedReceivables" (.record tok0)
          ⟨.success "A2" "R2", .failure, .ok "report-json", true⟩).trace []
      = false
      ∧ callsReportEndpoint
          (reportHandler_part002 "AgedReceivables" (.record tok0)
            ⟨.success "A2" "R2", .failure, .ok "report-json", true⟩).trace
        = true
      ∧ savesRecord
          (reportHandler_part002 "AgedReceivables" (.record tok0)
            ⟨.success "A2" "R2", .failure, .ok "report-json", true⟩).trace
        = false := by
  decide

/-- C7 amended: in the src/index.js handler the ordering holds in every
execution — every report fetch in the trace is preceded by a completed
durable save of a record whose access token is exactly the bearer the
fetch carries (a failed save aborts the request before any fetch). -/
theorem rotated_pair_saved_before_fetch
    (name : String) (file : FileState) (o : Oracle) :
    rotatedSavedBeforeFetch (reportHandler name file o).trace [] = true := by
  rcases o with ⟨refresh, save, fetch, insertOk⟩
  cases refresh <;> cases save <;> cases fetch <;> cases insertOk <;>
    cases hl : lookupReport name <;>
      simp [reportHandler, hl, rotatedSavedBeforeFetch] <;>
        split <;> simp [rotatedSavedBeforeFetch]

/-- C8 counterexample: the JS whitelist test `name in reports` consults
the prototype chain, so the request name "toString" — not a configured
report — passes the check even in src/index.js, and with a connected
record the handler proceeds to call the issuer and the report endpoint
instead of answering 400. -/
theorem prototype_key_passes_whitelist_counterexample :
    reports.any (fun p => p.fst == "toString") = false
      ∧ ¬ (reportHandler "toString" (.record tok0)
          ⟨.success "A2" "R2", .ok, .ok "report-json", true⟩).status = 400
      ∧ callsIssuer (reportHandler "toString" (.record tok0)
          ⟨.success "A2" "R2", .ok, .ok "report-json", true⟩).trace = true
      ∧ callsReportEndpoint (reportHandler "toString" (.record tok0)
          ⟨.success "A2" "R2", .ok, .ok "report-json", true⟩).trace
        = true := by
  decide

/-- Supporting evidence for the same point in the remaining variants:
part_003 has no whitelist test at all — a request for the unregistered
name "Nonexistent" does not answer 400 and makes network calls to both
the issuer and the report endpoint. -/
theorem part003_unknown_report_calls_issuer :
    lookupReport "Nonexistent" = none
      ∧ ¬ (reportHandler_part003 "Nonexistent" (.record tok0)
          ⟨true, .success "A2" "R2", .ok, .ok "report-json", true⟩).status = 400
      ∧ callsIssuer (reportHandler_part003 "Nonexistent" (.record tok0)
          ⟨true, .success "A2" "R2", .ok, .ok "report-json", true⟩).trace = true
      ∧ callsReportEndpoint (reportHandler_part003 "Nonexistent" (.record tok0)
          ⟨true, .success "A2" "R2", .ok, .ok "report-json", true⟩).trace
        = true := by
  decide

/-- C8 amended: in the variants with a whitelist check (src/index.js,
part_000, part_002, part_006) a report name that is neither a
configured entry nor an `Object.prototype` property name answers 400
"Unsupported report." with no network call; prototype-inherited names
such as "toString" pass the JS check and proceed, and the
part_003/part_004 variants have no whitelist check at all. -/
theorem unknown_report_yields_400_no_network
    (name : String) (file : FileState) (o : Oracle)
    (hname : lookupReport name = none) :
    (reportHandler name file o).status = 400
      ∧ (reportHandler name file o).body = "Unsupported report."
      ∧ (reportHandler name file o).trace = [] := by
  refine ⟨?_, ?_, ?_⟩ <;> simp [reportHandler, hname]

/-- C8 amended witness: "Nonexistent" answers 400 with an empty trace. -/
theorem unknown_report_yields_400_no_network_witness :
    (reportHandler "Nonexistent" (.record tok0)
        ⟨.network, .ok, .failure, false⟩).status = 400
      ∧ (reportHandler "Nonexistent" (.record tok0)
          ⟨.network, .ok, .failure, false⟩).body = "Unsupported report."
      ∧ (reportHandler "Nonexistent" (.record tok0)
          ⟨.network, .ok, .failure, false⟩).trace = [] :=
  unknown_report_yields_400_no_network "Nonexistent" (.record tok0)
    ⟨.network, .ok, .failure, false⟩ (by decide)

/-- C9: a successful refresh touches only the token fields — the
persisted record's `realm_id` after the call equals the one stored at
first authorization. -/
theorem refresh_preserves_realm_id
    (name params : String) (t : Tokens) (o : Oracle) (a r : String)
    (hname : lookupReport name = some params)
    (hrt : truthy t.refresh_token = true)
    (hrid : truthy t.realm_id = true)
    (hrefresh : o.refresh = .success a r)
    (hsave : o.save = .ok) :
    (loadTokens (reportHandler name (.record t) o).file).realm_id
      = t.realm_id := by
  rcases o with ⟨refresh, save, fetch, insertOk⟩
  simp only at hrefresh hsave
  subst hrefresh; subst hsave
  cases fetch <;> cases insertOk <;>
    simp [reportHandler, hname, hrt, hrid, loadTokens]

/-- C9 witness: concrete successful refresh on `tok0`. -/
theorem refresh_preserves_realm_id_witness :
    (loadTokens (reportHandler "AgedReceivables" (.record tok0)
        ⟨.success "A2" "R2", .ok, .ok "report-json", true⟩).file).realm_id
      = tok0.realm_id :=
  refresh_preserves_realm_id "AgedReceivables" "" tok0
    ⟨.success "A2" "R2", .ok, .ok "report-json", true⟩ "A2" "R2"
    (by decide) (by decide) (by decide) rfl rfl

/-- C10: when the refresh and save succeed but the report fetch fails,
the request answers 500 while the persisted record keeps the rotated
pair — the rotation side effect survives the failed request. -/
theorem fetch_failure_keeps_rotated_tokens
    (name params : String) (t : Tokens) (o : Oracle) (a r : String)
    (hname : lookupReport name = some params)
    (hrt : truthy t.refresh_token = true)
    (hrid : truthy t.realm_id = true)
    (hrefresh : o.refresh = .success a r)
    (hsave : o.save = .ok)
    (hfetch : o.fetch = .failure) :
    (reportHandler name (.record t) o).status = 500
      ∧ (reportHandler name (.record t) o).file
        = .record { t with access_token := some a, refresh_token := some r } := by
  rcases o with ⟨refresh, save, fetch, insertOk⟩
  simp only at hrefresh hsave hfetch
  subst hrefresh; subst hsave; subst hfetch
  constructor <;> simp [reportHandler, hname, hrt, hrid, loadTokens]

/-- C10 witness: concrete failed fetch after a successful rotation. -/
theorem fetch_failure_keeps_rotated_tokens_witness :
    (reportHandler "AgedReceivables" (.record tok0)
        ⟨.success "A2" "R2", .ok, .failure, true⟩).status = 500
      ∧ (reportHandler "AgedReceivables" (.record tok0)
          ⟨.success "A2" "R2", .ok, .failure, true⟩).file
        = .record { tok0 with access_token := some "A2",
                              refresh_token := some "R2" } :=
  fetch_failure_keeps_rotated_tokens "AgedReceivables" "" tok0
    ⟨.success "A2" "R2", .ok, .failure, true⟩ "A2" "R2"
    (by decide) (by decide) (by decide) rfl rfl rfl

end QboOauth
